import Mathlib

/-!
# Verification of the `CacheFirst` request strategy
  (workbox, `src/packages/workbox-runtime-caching/CacheFirst.mjs`)

A shallow embedding of the `CacheFirst` class.  The class holds a cache
name and an ordered plugin list, both fixed at construction, and exposes
`handle`, which answers a request from the cache when possible and
otherwise fetches from the network, returning the fetched response while
scheduling a cache write of a clone via `event.waitUntil`.

The embedding makes the external collaborators (`cacheWrapper.match`,
`fetchWrapper.fetch`) an explicit environment of functions, and records
every facade invocation in an event trace.  Store writes scheduled with
`event.waitUntil` are returned in a separate `pending` list: they are
registered background tasks, not effects awaited before `handle` returns.
-/

/-- A plugin is opaque to the strategy: it is only ever passed through to
the facades, so we model it by an identifier. -/
abbrev Plugin := Nat

/-- Match options are opaque to the strategy (the source always passes
`null`, i.e. `none`). -/
abbrev MatchOptions := Nat

/-- Fetch options are opaque to the strategy (the source always passes
`null`, i.e. `none`). -/
abbrev FetchOptions := Nat

/-- An immutable description of a resource to retrieve. -/
structure Request where
  method : String
  url : String
deriving DecidableEq, Repr

/-- A response: status, body payload, and a stream identifier.  The
stream identifier distinguishes independent single-consumption body
streams carrying the same logical payload: `Response.clone` yields a new
stream over the same body. -/
structure Response where
  status : Nat
  body : String
  stream : Nat
deriving DecidableEq, Repr

/-- `response.clone()`: a fresh, independently readable stream over the
same status and body. -/
def Response.clone (r : Response) : Response :=
  { r with stream := r.stream + 1 }

/-- Errors raised by the facades (network failure, lookup failure). -/
structure Err where
  msg : String
deriving DecidableEq, Repr

/-- The fetch event handed to `handle`; `event.waitUntil` registrations
are collected in the result rather than mutating the event. -/
structure FetchEvent where
  request : Request
deriving DecidableEq, Repr

/-- A call to `cacheWrapper.put` with all of its arguments. -/
structure PutCall where
  cacheName : String
  request : Request
  response : Response
  plugins : List Plugin
deriving DecidableEq, Repr

/-- Observable events on the synchronous (awaited) path of `handle`.
`resolveName` is the cache-name resolution performed by the constructor;
`putCall` is an *awaited, completed* store write — the strategy never
emits one, since its writes are only registered with `waitUntil`;
`readBody` is a body-stream consumption, which the strategy never
performs either. -/
inductive CallEvent where
  | resolveName (cacheName : Option String)
  | matchCall (cacheName : String) (request : Request)
      (matchOptions : Option MatchOptions) (plugins : List Plugin)
  | fetchCall (request : Request) (fetchOptions : Option FetchOptions)
      (plugins : List Plugin)
  | cloneCall (stream : Nat)
  | waitUntilCall
  | putCall (cacheName : String) (request : Request) (response : Response)
      (plugins : List Plugin)
  | readBody (stream : Nat)
deriving DecidableEq, Repr

/-- The environment: the Store Access Facade's `match` and the Network
Access Facade's `fetch`.  Failure is an `Except.error`. -/
structure Env where
  matchFn : String → Request → Option MatchOptions → List Plugin →
      Except Err (Option Response)
  fetchFn : Request → Option FetchOptions → List Plugin → Except Err Response

/-- The strategy instance: `this._cacheName` and `this._plugins`. -/
structure CacheFirst where
  cacheName : String
  plugins : List Plugin
deriving DecidableEq, Repr

/-- Constructor options: `{cacheName, plugins}`, both optional. -/
structure CacheFirstOptions where
  cacheName : Option String := none
  plugins : Option (List Plugin) := none
deriving DecidableEq, Repr

/-- Modelled from the spec: `cacheNames.getRuntimeName` lives in
`workbox-core` (outside `src/`).  Per the spec it is a pure resolution
function taking an optional caller-supplied name and defaulting to the
runtime-wide convention. -/
def getRuntimeName : Option String → String
  | some name => name
  | none => "workbox-runtime"

/-- The `CacheFirst` constructor:
`this._cacheName = cacheNames.getRuntimeName(options.cacheName);
 this._plugins = options.plugins || [];`
Returns the instance together with the constructor's event trace (the
one `resolveName` resolution). -/
def mkCacheFirst (options : CacheFirstOptions) : CacheFirst × List CallEvent :=
  ({ cacheName := getRuntimeName options.cacheName
     plugins := options.plugins.getD [] },
   [CallEvent.resolveName options.cacheName])

/-- Result of `_getFromNetwork`: the value returned (or error thrown),
the awaited events, and the `waitUntil`-registered pending store writes. -/
structure NetResult where
  result : Except Err Response
  events : List CallEvent
  pending : List PutCall
deriving Repr

/-- `CacheFirst._getFromNetwork(event)`:
awaits `fetchWrapper.fetch(event.request, null, this._plugins)`;
on success clones the response, registers
`cacheWrapper.put(this._cacheName, event.request, responseClone,
this._plugins)` with `event.waitUntil`, and returns the original
response; a fetch error propagates and nothing is registered. -/
def CacheFirst.getFromNetwork (s : CacheFirst) (env : Env)
    (event : FetchEvent) : NetResult :=
  match env.fetchFn event.request none s.plugins with
  | Except.error e =>
      { result := Except.error e
        events := [CallEvent.fetchCall event.request none s.plugins]
        pending := [] }
  | Except.ok response =>
      let responseClone := response.clone
      { result := Except.ok response
        events := [CallEvent.fetchCall event.request none s.plugins,
                   CallEvent.cloneCall responseClone.stream,
                   CallEvent.waitUntilCall]
        pending := [{ cacheName := s.cacheName
                      request := event.request
                      response := responseClone
                      plugins := s.plugins }] }

/-- Result of `handle`: the response returned (or error thrown), the
awaited event trace, the pending `waitUntil`-registered writes, and the
instance's state when `handle` returns (the method performs no field
assignment, which the embedding makes explicit). -/
structure HandleResult where
  result : Except Err Response
  events : List CallEvent
  pending : List PutCall
  finalState : CacheFirst
deriving Repr

/-- `CacheFirst.handle({event})`:
awaits `cacheWrapper.match(this._cacheName, event.request, null,
this._plugins)` (a match error propagates uncaught); on a hit returns
the cached response; on a miss runs `_getFromNetwork` inside
`try/catch`, then rethrows any caught error, else returns the fetched
response. -/
def CacheFirst.handle (s : CacheFirst) (env : Env)
    (event : FetchEvent) : HandleResult :=
  match env.matchFn s.cacheName event.request none s.plugins with
  | Except.error e =>
      { result := Except.error e
        events := [CallEvent.matchCall s.cacheName event.request none s.plugins]
        pending := []
        finalState := s }
  | Except.ok (some response) =>
      { result := Except.ok response
        events := [CallEvent.matchCall s.cacheName event.request none s.plugins]
        pending := []
        finalState := s }
  | Except.ok none =>
      let net := s.getFromNetwork env event
      { result := net.result
        events := CallEvent.matchCall s.cacheName event.request none s.plugins
            :: net.events
        pending := net.pending
        finalState := s }

/-- True on the events that invoke the network facade. -/
def CallEvent.isFetch : CallEvent → Bool
  | CallEvent.fetchCall _ _ _ => true
  | _ => false

/-- True on awaited, completed store writes. -/
def CallEvent.isPut : CallEvent → Bool
  | CallEvent.putCall _ _ _ _ => true
  | _ => false

/-- True on response duplications. -/
def CallEvent.isClone : CallEvent → Bool
  | CallEvent.cloneCall _ => true
  | _ => false

/-- True on cache-name resolutions. -/
def CallEvent.isResolve : CallEvent → Bool
  | CallEvent.resolveName _ => true
  | _ => false

/-- True on body-stream consumptions. -/
def CallEvent.isRead : CallEvent → Bool
  | CallEvent.readBody _ => true
  | _ => false

/-- The plugin list an event passes to a facade, when it passes one. -/
def CallEvent.pluginsOf : CallEvent → Option (List Plugin)
  | CallEvent.matchCall _ _ _ ps => some ps
  | CallEvent.fetchCall _ _ ps => some ps
  | CallEvent.putCall _ _ _ ps => some ps
  | _ => none

/-- The cache name an event passes to the store facade, when it passes
one. -/
def CallEvent.cacheNameOf : CallEvent → Option String
  | CallEvent.matchCall n _ _ _ => some n
  | CallEvent.putCall n _ _ _ => some n
  | _ => none

/-- A world of consumed body streams: reading a body to completion marks
its stream consumed. -/
abbrev StreamWorld := List Nat

/-- Fully consume a response's body stream. -/
def consumeBody (w : StreamWorld) (r : Response) : StreamWorld :=
  r.stream :: w

/-- A response is readable while its stream has not been consumed. -/
def readableIn (w : StreamWorld) (r : Response) : Bool :=
  !(w.contains r.stream)

/-- An event passes either no plugin list or exactly `ps`. -/
def pluginsOk (ps : List Plugin) (e : CallEvent) : Bool :=
  match e.pluginsOf with
  | none => true
  | some qs => qs == ps

/-- An event passes either no cache name or exactly `n`. -/
def cacheNameOk (n : String) (e : CallEvent) : Bool :=
  match e.cacheNameOf with
  | none => true
  | some m => m == n

/-- A sample request, for concrete witnesses. -/
def reqW : Request := { method := "GET", url := "/data.json" }

/-- A sample response, for concrete witnesses. -/
def respW : Response := { status := 200, body := "payload", stream := 0 }

/-- A sample fetch event, for concrete witnesses. -/
def evW : FetchEvent := { request := reqW }

/-- A default-constructed strategy instance, for concrete witnesses. -/
def sW : CacheFirst := (mkCacheFirst {}).fst

/-- A sample facade error, for concrete witnesses. -/
def errW : Err := { msg := "network down" }

/-- An environment whose store holds `respW` for every request. -/
def envHit : Env :=
  { matchFn := fun _ _ _ _ => Except.ok (some respW)
    fetchFn := fun _ _ _ => Except.ok respW }

/-- An environment with an empty store and a successful network. -/
def envMissOk : Env :=
  { matchFn := fun _ _ _ _ => Except.ok none
    fetchFn := fun _ _ _ => Except.ok respW }

/-- An environment with an empty store and a failing network. -/
def envMissErr : Env :=
  { matchFn := fun _ _ _ _ => Except.ok none
    fetchFn := fun _ _ _ => Except.error errW }

/-- An environment whose store lookup itself fails. -/
def envMatchErr : Env :=
  { matchFn := fun _ _ _ _ => Except.error errW
    fetchFn := fun _ _ _ => Except.ok respW }

/-- Claim C1: on a store hit, `handle` returns exactly the matched
response, never invokes the network facade, performs no store write, and
registers no pending write. -/
theorem cacheFirst_hit_serves_cached (s : CacheFirst) (env : Env)
    (event : FetchEvent) (r : Response)
    (hm : env.matchFn s.cacheName event.request none s.plugins =
      Except.ok (some r)) :
    (s.handle env event).result = Except.ok r ∧
    (s.handle env event).events.countP CallEvent.isFetch = 0 ∧
    (s.handle env event).events.countP CallEvent.isPut = 0 ∧
    (s.handle env event).pending = [] := by
  simp [CacheFirst.handle, hm, List.countP_cons, List.countP_nil,
    CallEvent.isFetch, CallEvent.isPut]

/-- Witness for C1: a concrete hit on the sample environment. -/
theorem cacheFirst_hit_serves_cached_witness :
    (sW.handle envHit evW).result = Except.ok respW ∧
    (sW.handle envHit evW).events.countP CallEvent.isFetch = 0 ∧
    (sW.handle envHit evW).events.countP CallEvent.isPut = 0 ∧
    (sW.handle envHit evW).pending = [] :=
  cacheFirst_hit_serves_cached sW envHit evW respW rfl

/-- Helper: on any environment whatsoever, one `handle` invocation makes
at most one network fetch, registers at most one pending write, and
never performs an awaited store write. -/
theorem handle_counts_aux (s : CacheFirst) (env : Env) (event : FetchEvent) :
    (s.handle env event).events.countP CallEvent.isFetch ≤ 1 ∧
    (s.handle env event).pending.length ≤ 1 ∧
    (s.handle env event).events.countP CallEvent.isPut = 0 := by
  unfold CacheFirst.handle
  cases hm : env.matchFn s.cacheName event.request none s.plugins with
  | error e =>
      simp [List.countP_cons, List.countP_nil, CallEvent.isFetch, CallEvent.isPut]
  | ok o =>
      cases o with
      | some r =>
          simp [List.countP_cons, List.countP_nil, CallEvent.isFetch,
            CallEvent.isPut]
      | none =>
          unfold CacheFirst.getFromNetwork
          cases hf : env.fetchFn event.request none s.plugins with
          | error e =>
              simp [List.countP_cons, List.countP_nil, CallEvent.isFetch,
                CallEvent.isPut]
          | ok r =>
              simp [List.countP_cons, List.countP_nil, CallEvent.isFetch,
                CallEvent.isPut]

/-- Claim C2: on a store miss with a successful fetch, `handle` returns
the fetched response and registers exactly one `put`, carrying the
construction-time cache name and a body equal to the returned response's
body; and no invocation ever makes more than one fetch or more than one
put. -/
theorem cacheFirst_miss_fetches_and_caches (s : CacheFirst) (env : Env)
    (event : FetchEvent) (r : Response)
    (hm : env.matchFn s.cacheName event.request none s.plugins =
      Except.ok none)
    (hf : env.fetchFn event.request none s.plugins = Except.ok r) :
    (s.handle env event).result = Except.ok r ∧
    (s.handle env event).pending =
      [{ cacheName := s.cacheName
         request := event.request
         response := r.clone
         plugins := s.plugins }] ∧
    r.clone.body = r.body ∧
    (∀ env2 : Env, ∀ ev2 : FetchEvent,
      (s.handle env2 ev2).events.countP CallEvent.isFetch ≤ 1 ∧
      (s.handle env2 ev2).pending.length +
        (s.handle env2 ev2).events.countP CallEvent.isPut ≤ 1) := by
  refine ⟨?_, ?_, ?_, ?_⟩
  · simp [CacheFirst.handle, CacheFirst.getFromNetwork, hm, hf]
  · simp [CacheFirst.handle, CacheFirst.getFromNetwork, hm, hf]
  · simp [Response.clone]
  · intro env2 ev2
    obtain ⟨h1, h2, h3⟩ := handle_counts_aux s env2 ev2
    exact ⟨h1, by omega⟩

/-- Witness for C2: a concrete miss followed by a successful fetch. -/
theorem cacheFirst_miss_fetches_and_caches_witness :
    (sW.handle envMissOk evW).result = Except.ok respW ∧
    (sW.handle envMissOk evW).pending =
      [{ cacheName := sW.cacheName
         request := evW.request
         response := respW.clone
         plugins := sW.plugins }] ∧
    respW.clone.body = respW.body ∧
    (∀ env2 : Env, ∀ ev2 : FetchEvent,
      (sW.handle env2 ev2).events.countP CallEvent.isFetch ≤ 1 ∧
      (sW.handle env2 ev2).pending.length +
        (sW.handle env2 ev2).events.countP CallEvent.isPut ≤ 1) :=
  cacheFirst_miss_fetches_and_caches sW envMissOk evW respW rfl rfl

/-- Claim C3: on a store miss with a failing fetch, `handle` fails with
exactly the fetch's error, and no store write is performed or scheduled. -/
theorem cacheFirst_fetch_error_propagates (s : CacheFirst) (env : Env)
    (event : FetchEvent) (e : Err)
    (hm : env.matchFn s.cacheName event.request none s.plugins =
      Except.ok none)
    (hf : env.fetchFn event.request none s.plugins = Except.error e) :
    (s.handle env event).result = Except.error e ∧
    (s.handle env event).events.countP CallEvent.isPut = 0 ∧
    (s.handle env event).pending = [] := by
  simp [CacheFirst.handle, CacheFirst.getFromNetwork, hm, hf,
    List.countP_cons, List.countP_nil, CallEvent.isPut]

/-- Witness for C3: a concrete miss followed by a failing fetch. -/
theorem cacheFirst_fetch_error_propagates_witness :
    (sW.handle envMissErr evW).result = Except.error errW ∧
    (sW.handle envMissErr evW).events.countP CallEvent.isPut = 0 ∧
    (sW.handle envMissErr evW).pending = [] :=
  cacheFirst_fetch_error_propagates sW envMissErr evW errW rfl rfl

/-- Claim C4: on a miss with a successful fetch, the trace is exactly
match, fetch, one clone, waitUntil — the duplication happens once, after
the fetch, with no body consumption before or after it on the strategy's
path; the returned response and the persisted copy are distinct streams
over the same payload, and fully consuming either leaves the other
readable. -/
theorem cacheFirst_duplication_independent (s : CacheFirst) (env : Env)
    (event : FetchEvent) (r : Response)
    (hm : env.matchFn s.cacheName event.request none s.plugins =
      Except.ok none)
    (hf : env.fetchFn event.request none s.plugins = Except.ok r) :
    (s.handle env event).events =
      [CallEvent.matchCall s.cacheName event.request none s.plugins,
       CallEvent.fetchCall event.request none s.plugins,
       CallEvent.cloneCall r.clone.stream,
       CallEvent.waitUntilCall] ∧
    (s.handle env event).events.countP CallEvent.isClone = 1 ∧
    (s.handle env event).events.countP CallEvent.isRead = 0 ∧
    (s.handle env event).result = Except.ok r ∧
    (s.handle env event).pending =
      [{ cacheName := s.cacheName
         request := event.request
         response := r.clone
         plugins := s.plugins }] ∧
    r.clone.stream ≠ r.stream ∧
    readableIn (consumeBody [] r) r.clone = true ∧
    readableIn (consumeBody [] r.clone) r = true := by
  refine ⟨?_, ?_, ?_, ?_, ?_, ?_, ?_, ?_⟩
  · simp [CacheFirst.handle, CacheFirst.getFromNetwork, hm, hf]
  · simp [CacheFirst.handle, CacheFirst.getFromNetwork, hm, hf,
      List.countP_cons, List.countP_nil, CallEvent.isClone]
  · simp [CacheFirst.handle, CacheFirst.getFromNetwork, hm, hf,
      List.countP_cons, List.countP_nil, CallEvent.isRead]
  · simp [CacheFirst.handle, CacheFirst.getFromNetwork, hm, hf]
  · simp [CacheFirst.handle, CacheFirst.getFromNetwork, hm, hf]
  · simp [Response.clone]
  · simp [readableIn, consumeBody, Response.clone]
  · simp [readableIn, consumeBody, Response.clone]

/-- Witness for C4: concrete duplication on the sample environment. -/
theorem cacheFirst_duplication_independent_witness :
    (sW.handle envMissOk evW).events =
      [CallEvent.matchCall sW.cacheName evW.request none sW.plugins,
       CallEvent.fetchCall evW.request none sW.plugins,
       CallEvent.cloneCall respW.clone.stream,
       CallEvent.waitUntilCall] ∧
    (sW.handle envMissOk evW).events.countP CallEvent.isClone = 1 ∧
    (sW.handle envMissOk evW).events.countP CallEvent.isRead = 0 ∧
    (sW.handle envMissOk evW).result = Except.ok respW ∧
    (sW.handle envMissOk evW).pending =
      [{ cacheName := sW.cacheName
         request := evW.request
         response := respW.clone
         plugins := sW.plugins }] ∧
    respW.clone.stream ≠ respW.stream ∧
    readableIn (consumeBody [] respW) respW.clone = true ∧
    readableIn (consumeBody [] respW.clone) respW = true :=
  cacheFirst_duplication_independent sW envMissOk evW respW rfl rfl

/-- Claim C5: on a miss with a successful fetch, the response is
delivered with no awaited store write on `handle`'s path — the single
write is only a pending task registered through `event.waitUntil`, so it
may still be outstanding when the result is returned, and the hosting
context owns awaiting it. -/
theorem cacheFirst_put_not_awaited (s : CacheFirst) (env : Env)
    (event : FetchEvent) (r : Response)
    (hm : env.matchFn s.cacheName event.request none s.plugins =
      Except.ok none)
    (hf : env.fetchFn event.request none s.plugins = Except.ok r) :
    (s.handle env event).result = Except.ok r ∧
    (s.handle env event).events.countP CallEvent.isPut = 0 ∧
    CallEvent.waitUntilCall ∈ (s.handle env event).events ∧
    (s.handle env event).pending =
      [{ cacheName := s.cacheName
         request := event.request
         response := r.clone
         plugins := s.plugins }] := by
  refine ⟨?_, ?_, ?_, ?_⟩
  · simp [CacheFirst.handle, CacheFirst.getFromNetwork, hm, hf]
  · simp [CacheFirst.handle, CacheFirst.getFromNetwork, hm, hf,
      List.countP_cons, List.countP_nil, CallEvent.isPut]
  · simp [CacheFirst.handle, CacheFirst.getFromNetwork, hm, hf]
  · simp [CacheFirst.handle, CacheFirst.getFromNetwork, hm, hf]

/-- Witness for C5: the concrete pending write on the sample miss. -/
theorem cacheFirst_put_not_awaited_witness :
    (sW.handle envMissOk evW).result = Except.ok respW ∧
    (sW.handle envMissOk evW).events.countP CallEvent.isPut = 0 ∧
    CallEvent.waitUntilCall ∈ (sW.handle envMissOk evW).events ∧
    (sW.handle envMissOk evW).pending =
      [{ cacheName := sW.cacheName
         request := evW.request
         response := respW.clone
         plugins := sW.plugins }] :=
  cacheFirst_put_not_awaited sW envMissOk evW respW rfl rfl

/-- Claim C6: every facade invocation of one `handle` run — the match,
any fetch, and any scheduled put — receives exactly the instance's
plugin list, which the constructor stored in caller order, unreordered. -/
theorem cacheFirst_plugins_preserved (s : CacheFirst) (env : Env)
    (event : FetchEvent) (options : CacheFirstOptions) :
    ((s.handle env event).events.all (pluginsOk s.plugins)) = true ∧
    ((s.handle env event).pending.all
      (fun p => p.plugins == s.plugins)) = true ∧
    (mkCacheFirst options).fst.plugins = options.plugins.getD [] := by
  refine ⟨?_, ?_, rfl⟩ <;>
  · unfold CacheFirst.handle
    cases hm : env.matchFn s.cacheName event.request none s.plugins with
    | error e =>
        simp [pluginsOk, CallEvent.pluginsOf]
    | ok o =>
        cases o with
        | some r => simp [pluginsOk, CallEvent.pluginsOf]
        | none =>
            unfold CacheFirst.getFromNetwork
            cases hf : env.fetchFn event.request none s.plugins with
            | error e => simp [pluginsOk, CallEvent.pluginsOf]
            | ok r => simp [pluginsOk, CallEvent.pluginsOf]

/-- Claim C7: the cache name is resolved exactly once, by the
constructor; `handle` performs no resolution, returns the instance's
fields unchanged, and every store invocation it makes uses the
construction-time cache name. -/
theorem cacheFirst_stateless (s : CacheFirst) (env : Env)
    (event : FetchEvent) (options : CacheFirstOptions) :
    (s.handle env event).finalState = s ∧
    (s.handle env event).events.countP CallEvent.isResolve = 0 ∧
    ((s.handle env event).events.all (cacheNameOk s.cacheName)) = true ∧
    ((s.handle env event).pending.all
      (fun p => p.cacheName == s.cacheName)) = true ∧
    (mkCacheFirst options).snd.countP CallEvent.isResolve = 1 := by
  refine ⟨?_, ?_, ?_, ?_,
    by simp [mkCacheFirst, List.countP_cons, List.countP_nil,
      CallEvent.isResolve]⟩ <;>
  · unfold CacheFirst.handle
    cases hm : env.matchFn s.cacheName event.request none s.plugins with
    | error e =>
        simp [cacheNameOk, CallEvent.cacheNameOf, mkCacheFirst,
          List.countP_cons, List.countP_nil, CallEvent.isResolve]
    | ok o =>
        cases o with
        | some r =>
            simp [cacheNameOk, CallEvent.cacheNameOf, mkCacheFirst,
              List.countP_cons, List.countP_nil, CallEvent.isResolve]
        | none =>
            unfold CacheFirst.getFromNetwork
            cases hf : env.fetchFn event.request none s.plugins with
            | error e =>
                simp [cacheNameOk, CallEvent.cacheNameOf, mkCacheFirst,
                  List.countP_cons, List.countP_nil, CallEvent.isResolve]
            | ok r =>
                simp [cacheNameOk, CallEvent.cacheNameOf, mkCacheFirst,
                  List.countP_cons, List.countP_nil, CallEvent.isResolve]

/-- Claim C8: construction accepts optional cache name and plugins, both
defaulting: an empty options object yields the canonical runtime name
(resolution applied to the absent name) and an empty plugin list. -/
theorem cacheFirst_construction_defaults (options : CacheFirstOptions) :
    (mkCacheFirst {}).fst.cacheName = getRuntimeName none ∧
    (mkCacheFirst {}).fst.plugins = [] ∧
    (mkCacheFirst options).fst.cacheName = getRuntimeName options.cacheName ∧
    (mkCacheFirst options).fst.plugins = options.plugins.getD [] :=
  ⟨rfl, rfl, rfl, rfl⟩

/-- Claim C9: a store-lookup failure propagates from `handle` uncaught,
and in that case no fetch happens and no write is performed or
scheduled. -/
theorem cacheFirst_match_error_propagates (s : CacheFirst) (env : Env)
    (event : FetchEvent) (e : Err)
    (hm : env.matchFn s.cacheName event.request none s.plugins =
      Except.error e) :
    (s.handle env event).result = Except.error e ∧
    (s.handle env event).events.countP CallEvent.isFetch = 0 ∧
    (s.handle env event).events.countP CallEvent.isPut = 0 ∧
    (s.handle env event).pending = [] := by
  simp [CacheFirst.handle, hm, List.countP_cons, List.countP_nil,
    CallEvent.isFetch, CallEvent.isPut]

/-- Witness for C9: a concrete failing store lookup. -/
theorem cacheFirst_match_error_propagates_witness :
    (sW.handle envMatchErr evW).result = Except.error errW ∧
    (sW.handle envMatchErr evW).events.countP CallEvent.isFetch = 0 ∧
    (sW.handle envMatchErr evW).events.countP CallEvent.isPut = 0 ∧
    (sW.handle envMatchErr evW).pending = [] :=
  cacheFirst_match_error_propagates sW envMatchErr evW errW rfl

/-- Claim C10: on a miss with a successful fetch, the caller receives
the original response produced by the network facade, while the copy
handed to `put` is the freshly made clone — a different stream object
with the same status and body. -/
theorem cacheFirst_returns_original_caches_clone (s : CacheFirst)
    (env : Env) (event : FetchEvent) (r : Response)
    (hm : env.matchFn s.cacheName event.request none s.plugins =
      Except.ok none)
    (hf : env.fetchFn event.request none s.plugins = Except.ok r) :
    (s.handle env event).result = Except.ok r ∧
    (s.handle env event).pending =
      [{ cacheName := s.cacheName
         request := event.request
         response := r.clone
         plugins := s.plugins }] ∧
    r.clone ≠ r ∧
    r.clone.body = r.body ∧
    r.clone.status = r.status := by
  refine ⟨?_, ?_, ?_, rfl, rfl⟩
  · simp [CacheFirst.handle, CacheFirst.getFromNetwork, hm, hf]
  · simp [CacheFirst.handle, CacheFirst.getFromNetwork, hm, hf]
  · intro h
    have hs := congrArg Response.stream h
    simp [Response.clone] at hs

/-- Witness for C10: concrete original-vs-clone split on the sample
environment. -/
theorem cacheFirst_returns_original_caches_clone_witness :
    (sW.handle envMissOk evW).result = Except.ok respW ∧
    (sW.handle envMissOk evW).pending =
      [{ cacheName := sW.cacheName
         request := evW.request
         response := respW.clone
         plugins := sW.plugins }] ∧
    respW.clone ≠ respW ∧
    respW.clone.body = respW.body ∧
    respW.clone.status = respW.status :=
  cacheFirst_returns_original_caches_clone sW envMissOk evW respW rfl rfl
